import Mathlib

/-!
Shallow embedding of the HeadHunter API client (`src/hh_api.py`) and the
PostgreSQL data-access layer (`src/database.py`) of the Jobs_HH_and_posgresql
repository, together with proofs about the behaviour its specification
describes.

Modelling conventions:
* JSON values are the inductive `Json`; decoded response bodies that Python
  holds as `dict` are association lists `List (String × Json)`.
* HTTP traffic is an oracle: `__connect` is a pure function of the transport
  outcome, and the methods that loop over pages take an oracle from the page
  number (resp. the request parameters) to the outcome of `connect`.
* Python exceptions become explicit error values (`ApiExc`, `PyErr`); a method
  that can raise returns `Except`.
* Python integers are `Int`; Python `bool` is a separate constructor of
  `PyVal` that `isinstance(·, int)` accepts, mirroring `bool <: int`.
-/

namespace HH

/-- JSON values as decoded by `response.json()`.  Numbers are modelled as
integers (the fields the program touches are identifiers and counts). -/
inductive Json where
  | null : Json
  | bool (b : Bool) : Json
  | num (n : Int) : Json
  | str (s : String) : Json
  | arr (xs : List Json) : Json
  | obj (kvs : List (String × Json)) : Json

/-- An HTTP response as seen by `requests.get`: status code, raw text, and the
decoded JSON body. -/
structure HTTPResponse where
  status_code : Nat
  text : String
  body : Json

/-- Outcome of the transport layer: either a response arrived, or
`requests.RequestException` was raised with the given message. -/
inductive TransportOutcome where
  | resp (r : HTTPResponse) : TransportOutcome
  | exc (msg : String) : TransportOutcome

/-- Result of `HeadHunterAPI.__connect`: the decoded mapping, or one of the
exceptions the method raises (`APIError`, `ValueError`). -/
inductive ConnectResult where
  | ok (d : List (String × Json)) : ConnectResult
  | apiError (msg : String) : ConnectResult
  | valueError (msg : String) : ConnectResult

/-- Exceptions that escape the API-layer methods. -/
inductive ApiExc where
  | apiError (msg : String) : ApiExc
  | valueError (msg : String) : ApiExc
  | typeError (msg : String) : ApiExc

/-- Model of `HeadHunterAPI.__connect` (hh_api.py lines 40-62) as a function of the
transport outcome: non-200 status raises `APIError` with status and body text;
a transport exception raises `APIError` with the transport message; a 200
response whose body is not a dict raises `ValueError`; otherwise the decoded
mapping is returned. -/
def hhConnect : TransportOutcome → ConnectResult
  | .exc m => .apiError ("Ошибка при запросе: " ++ m)
  | .resp r =>
    if r.status_code ≠ 200 then
      .apiError ("Ошибка API: " ++ toString r.status_code ++ " - " ++ r.text)
    else
      match r.body with
      | .obj kvs => .ok kvs
      | _ => .valueError "API выдает не словарь"

/-- Python `dict.get(k, dflt)` on an association list. -/
def dictGet (d : List (String × Json)) (k : String) (dflt : Json) : Json :=
  match d.find? (fun kv => kv.fst == k) with
  | some kv => kv.snd
  | none => dflt

/-- Python truthiness test (`if not vacancy`) on a JSON value. -/
def falsy : Json → Bool
  | .null => true
  | .bool b => !b
  | .num n => n == 0
  | .str s => s.isEmpty
  | .arr xs => xs.isEmpty
  | .obj kvs => kvs.isEmpty

/-- Python iteration of a value, as used by `list.extend`: lists yield their
elements, strings their characters, dicts their keys; other values raise
`TypeError`. -/
def pyIter : Json → Option (List Json)
  | .arr xs => some xs
  | .str s => some (s.data.map (fun c => Json.str (String.mk [c])))
  | .obj kvs => some (kvs.map (fun kv => Json.str kv.fst))
  | _ => none

/-- The `while self._params["page"] < max_pages` loop of
`get_vacancies_by_employer_id` (hh_api.py lines 96-102), instrumented with the
number of `connect` calls.  `remaining` is the number of loop iterations the
guard still allows (`max_pages - page`); `page` is the current page cursor;
`acc` is `self.__vacancies`. -/
def fetchPagesTr (oracle : Nat → ConnectResult) :
    Nat → Nat → List Json → Except ApiExc (List Json) × Nat
  | _, 0, acc => (Except.ok acc, 0)
  | page, remaining + 1, acc =>
    match oracle page with
    | .apiError m => (Except.error (ApiExc.apiError m), 1)
    | .valueError m => (Except.error (ApiExc.valueError m), 1)
    | .ok d =>
      let v := dictGet d "items" (Json.arr [])
      if falsy v then (Except.ok acc, 1)
      else
        match pyIter v with
        | none => (Except.error (ApiExc.typeError "object is not iterable"), 1)
        | some xs =>
          let r := fetchPagesTr oracle (page + 1) remaining (acc ++ xs)
          (r.1, r.2 + 1)

/-- Model of `HHVacanciesAPI.get_vacancies_by_employer_id` (hh_api.py lines 86-104):
the page cursor is reset to 0, `self.__vacancies` is cleared, and the loop
runs while `page < max_pages`.  `max_pages` is a Python `int`, so it is
modelled as `Int`; the loop admits `max_pages.toNat` iterations. -/
def get_vacancies_by_employer_id (oracle : Nat → ConnectResult)
    (max_pages : Int) : Except ApiExc (List Json) :=
  (fetchPagesTr oracle 0 max_pages.toNat []).1

/-- Number of `connect` calls `get_vacancies_by_employer_id` issues. -/
def vacanciesConnectCalls (oracle : Nat → ConnectResult) (max_pages : Int) :
    Nat :=
  (fetchPagesTr oracle 0 max_pages.toNat []).2

/-- A Python value passed as `top_n`. -/
inductive PyVal where
  | int (n : Int) : PyVal
  | bool (b : Bool) : PyVal
  | str (s : String) : PyVal
  | none : PyVal

/-- Python `isinstance(x, int)`: `True` for `int` and for `bool`
(`bool` is a subclass of `int`). -/
def isInstanceInt : PyVal → Bool
  | .int _ => true
  | .bool _ => true
  | _ => false

/-- Numeric value of an int-like Python value (`True == 1`, `False == 0`);
0 for the non-numeric values the guard has already rejected. -/
def pyIntVal : PyVal → Int
  | .int n => n
  | .bool b => if b then 1 else 0
  | _ => 0

/-- Query parameters `get_top_employers` sends (hh_api.py line 189). -/
structure EmployersParams where
  per_page : PyVal
  sort_by : String
  area : String

/-- Common tail of `search_employers_by_keyword`/`get_top_employers`:
`data.get("items", [])` followed by `self.__employers.extend(...)` on a
freshly cleared list. -/
def handleItemsResponse : ConnectResult → Except ApiExc (List Json)
  | .apiError m => .error (.apiError m)
  | .valueError m => .error (.valueError m)
  | .ok d =>
    match pyIter (dictGet d "items" (Json.arr [])) with
    | some xs => .ok xs
    | Option.none => .error (.typeError "object is not iterable")

/-- Model of `HHEmployersAPI.get_top_employers` (hh_api.py lines 177-194): raises
`TypeError` unless `isinstance(top_n, int)`, raises `ValueError` when
`top_n > 100`, otherwise issues the request with `per_page = top_n` and
returns the `items` of the response. -/
def get_top_employers (oracle : EmployersParams → ConnectResult)
    (top_n : PyVal) : Except ApiExc (List Json) :=
  if isInstanceInt top_n = false then
    .error (.typeError "Аргумент не является числом")
  else if pyIntVal top_n > 100 then
    .error (.valueError "Количество должно быть в диапазоне от 1 до 100")
  else
    handleItemsResponse
      (oracle { per_page := top_n, sort_by := "by_vacancies_open", area := "113" })

/-- Whether an API-layer outcome is a raised `TypeError`. -/
def isTypeErr {α : Type} : Except ApiExc α → Bool
  | .error (.typeError _) => true
  | _ => false

/-- Whether an API-layer outcome is a raised `ValueError`. -/
def isValueErr {α : Type} : Except ApiExc α → Bool
  | .error (.valueError _) => true
  | _ => false

end HH

namespace DB

/-- Row of the `employers` table (DDL in `src/utils.py`,
`create_table_employers`). -/
structure Employer where
  employer_id : Int
  employer_name : String
  employer_url : String
deriving DecidableEq

/-- Row of the `vacancies` table (DDL in `src/utils.py`,
`create_table_vacancies`).  `employer_id`, `salary_from` and `salary_to`
carry no NOT NULL constraint, so they are `Option`. -/
structure Vacancy where
  vacancy_id : Int
  employer_id : Option Int
  vacancy_name : String
  city : String
  vacancy_url : String
  salary_from : Option Int
  salary_to : Option Int
deriving DecidableEq

/-- The stored state the read queries run against. -/
structure Database where
  employers : List Employer
  vacancies : List Vacancy

/-- The one exception that can escape a `DBManager` read method: when
`DBManager.connect` fails it leaves `self.__conn = None`, and
`self.__conn.cursor()` then raises `AttributeError`, which the
`except psycopg2.DatabaseError` clause does not catch. -/
inductive PyErr where
  | attributeError (msg : String) : PyErr
deriving DecidableEq

/-- Effects the environment injects into one read call: whether
`psycopg2.connect` succeeds, and whether the query execution succeeds
(`queryOk = false` means `psycopg2.DatabaseError` is raised during
execute/fetch). -/
structure DBEnv where
  connectOk : Bool
  queryOk : Bool

/-- Observable outcome of one read method: its return value or escaped
exception, the connection handle afterwards, the number of queries executed,
and the number of `psycopg2.connect` attempts. -/
structure DBCall (α : Type) where
  result : Except PyErr α
  conn : Option Unit
  queries : Nat
  connects : Nat

/-- Model of `DBManager.connect` (database.py lines 89-104) acting on the handle:
when a connection exists it only logs; otherwise it attempts
`psycopg2.connect`, leaving the handle `None` on failure.  Returns the new
handle and the number of connect attempts. -/
def dbConnect (env : DBEnv) : Option Unit → Option Unit × Nat
  | some c => (some c, 0)
  | none => ((if env.connectOk then some () else none), 1)

/-- Shared shape of every read method (database.py lines 112-240):
`self.connect()`, then `with self.__conn.cursor() as cur: ...` inside
`try/except psycopg2.DatabaseError/finally self.close()`.  When the handle is
`None` after `connect`, `.cursor()` raises `AttributeError`; the `finally`
still runs, so the handle is `None` afterwards in every case.  A
`DatabaseError` during execution is converted to `emptyVal`. -/
def runRead {α : Type} (env : DBEnv) (conn : Option Unit) (rows : α)
    (emptyVal : α) : DBCall α :=
  let c1 := dbConnect env conn
  match c1.1 with
  | none =>
    { result := .error (.attributeError "NoneType object has no attribute cursor"),
      conn := none, queries := 0, connects := c1.2 }
  | some _ =>
    if env.queryOk then
      { result := .ok rows, conn := none, queries := 1, connects := c1.2 }
    else
      { result := .ok emptyVal, conn := none, queries := 1, connects := c1.2 }

/-- Vacancy count of one employer under `LEFT JOIN vacancies USING(employer_id)`
with `COUNT(vacancy_id)`: vacancies whose `employer_id` matches; a NULL
`employer_id` never joins. -/
def countVacanciesOf (db : Database) (eid : Int) : Nat :=
  (db.vacancies.filter (fun v => v.employer_id == some eid)).length

/-- Result rows of the query in `get_companies_and_vacancies_count`
(database.py lines 121-128): employers left-joined to vacancies, grouped by
`employer_name`.  The schema declares `employer_name` UNIQUE, so groups
correspond to employers; SQL leaves the row order unspecified and the model
fixes it to the employers' stored order. -/
def companiesAndVacanciesRows (db : Database) : List (String × Nat) :=
  db.employers.map (fun e => (e.employer_name, countVacanciesOf db e.employer_id))

/-- Employer name joined through `LEFT JOIN employers USING(employer_id)`:
NULL when the vacancy's employer is absent. -/
def employerNameOf (db : Database) (eid : Option Int) : Option String :=
  match eid with
  | some i => (db.employers.find? (fun e => e.employer_id == i)).map (·.employer_name)
  | none => none

/-- Result rows of the query in `get_all_vacancies` (database.py lines
149-155): employer name, vacancy name, both salary bounds, url. -/
def allVacanciesRows (db : Database) :
    List (Option String × String × Option Int × Option Int × String) :=
  db.vacancies.map (fun v =>
    (employerNameOf db v.employer_id, v.vacancy_name, v.salary_from, v.salary_to,
      v.vacancy_url))

/-- SQL integer midpoint `(salary_from + salary_to)/2`: both operands are INT,
so PostgreSQL divides with truncation toward zero, which is `Int.tdiv`. -/
def intMidpoint (f t : Int) : Int := Int.tdiv (f + t) 2

/-- Per-row sums `salary_from + salary_to`; a row where either bound is NULL
contributes NULL and is skipped by `AVG`. -/
def salarySums (db : Database) : List Int :=
  db.vacancies.filterMap (fun v =>
    match v.salary_from, v.salary_to with
    | some f, some t => some (f + t)
    | _, _ => none)

/-- Aggregate of `get_avg_salary` (database.py lines 174-179):
`AVG((salary_from + salary_to)/2)` — integer midpoints averaged exactly
(`AVG` of INT yields numeric); NULL when no row has both bounds. -/
def avgSalaryAggregate (db : Database) : Option ℚ :=
  let mids := db.vacancies.filterMap (fun v =>
    match v.salary_from, v.salary_to with
    | some f, some t => some (intMidpoint f t)
    | _, _ => none)
  if mids.isEmpty then none
  else some ((mids.sum : ℚ) / (mids.length : ℚ))

/-- Threshold of `get_vacancies_with_higher_salary` (database.py line 202):
`(AVG(salary_from + salary_to))/2`, an exact numeric value; NULL when no row
has both bounds. -/
def higherSalaryThreshold (db : Database) : Option ℚ :=
  let sums := salarySums db
  if sums.isEmpty then none
  else some (((sums.sum : ℚ) / (sums.length : ℚ)) / 2)

/-- Result rows of the query in `get_vacancies_with_higher_salary`
(database.py lines 200-206): rows whose integer midpoint
`(salary_from+salary_to)/2` strictly exceeds the numeric threshold; rows with
a NULL bound compare as NULL and are excluded, and a NULL threshold excludes
every row. -/
def higherSalaryRows (db : Database) : List Vacancy :=
  match higherSalaryThreshold db with
  | none => []
  | some thr =>
    db.vacancies.filter (fun v =>
      match v.salary_from, v.salary_to with
      | some f, some t => decide ((intMidpoint f t : ℚ) > thr)
      | _, _ => false)

/-- Python whitespace characters recognised by `str.split()` (ASCII range:
space, tab, newline, carriage return, vertical tab, form feed). -/
def isSpace (c : Char) : Bool :=
  c == ' ' || c == '\t' || c == '\n' || c == '\r' ||
    c == Char.ofNat 11 || c == Char.ofNat 12

/-- Accumulator pass of Python `str.split()`: split on runs of whitespace,
discarding empty tokens.  `cur` holds the current token reversed. -/
def pySplitAux : List Char → List Char → List String
  | [], cur => if cur.isEmpty then [] else [String.mk cur.reverse]
  | c :: rest, cur =>
    if isSpace c then
      if cur.isEmpty then pySplitAux rest []
      else String.mk cur.reverse :: pySplitAux rest []
    else pySplitAux rest (c :: cur)

/-- Python `keywords.split()`. -/
def pySplit (s : String) : List String := pySplitAux s.data []

/-- Whether `needle` occurs as a contiguous substring of `hay`. -/
def listContainsSub (hay needle : List Char) : Bool :=
  hay.tails.any (fun t => needle.isPrefixOf t)

/-- Lower-casing of one character as SQL `LOWER` performs it, restricted to
the ASCII letters that occur in the modelled data. -/
def charLower (c : Char) : Char :=
  if 'A' ≤ c && c ≤ 'Z' then Char.ofNat (c.toNat + 32) else c

/-- One conjunct `LOWER(vacancy_name) LIKE LOWER('%kw%')` for a keyword free
of the LIKE wildcards `%` and `_`: case-insensitive substring test. -/
def likeContains (name kw : String) : Bool :=
  listContainsSub (name.data.map charLower) (kw.data.map charLower)

/-- Result rows of the query in `get_vacancies_with_keyword` (database.py
lines 229-233): the name must contain every keyword (conjunctive AND). -/
def keywordRows (db : Database) (kws : List String) : List Vacancy :=
  db.vacancies.filter (fun v => kws.all (fun kw => likeContains v.vacancy_name kw))

/-- Model of `DBManager.get_companies_and_vacancies_count` (database.py lines
112-135).  The source's `return result if result else []` is the inner
`if ... then [] else`. -/
def get_companies_and_vacancies_count (db : Database) (env : DBEnv)
    (conn : Option Unit) : DBCall (List (String × Nat)) :=
  runRead env conn
    (let r := companiesAndVacanciesRows db; if r.isEmpty then [] else r) []

/-- Model of `DBManager.get_all_vacancies` (database.py lines 137-162). -/
def get_all_vacancies (db : Database) (env : DBEnv) (conn : Option Unit) :
    DBCall (List (Option String × String × Option Int × Option Int × String)) :=
  runRead env conn
    (let r := allVacanciesRows db; if r.isEmpty then [] else r) []

/-- Model of `DBManager.get_avg_salary` (database.py lines 164-189):
`float(result) if result else 0.0` maps a NULL aggregate (and an exact zero,
which is falsy) to 0.0; a `DatabaseError` is converted to 0.0. -/
def get_avg_salary (db : Database) (env : DBEnv) (conn : Option Unit) :
    DBCall ℚ :=
  runRead env conn
    (match avgSalaryAggregate db with
     | none => 0
     | some q => if q = 0 then 0 else q) 0

/-- Model of `DBManager.get_vacancies_with_higher_salary` (database.py lines
191-214). -/
def get_vacancies_with_higher_salary (db : Database) (env : DBEnv)
    (conn : Option Unit) : DBCall (List Vacancy) :=
  runRead env conn
    (let r := higherSalaryRows db; if r.isEmpty then [] else r) []

/-- Model of `DBManager.get_vacancies_with_keyword` (database.py lines
216-240): whitespace-only input returns `[]` before `self.connect()` is
reached, leaving the handle untouched and issuing nothing. -/
def get_vacancies_with_keyword (db : Database) (env : DBEnv)
    (conn : Option Unit) (keywords : String) : DBCall (List Vacancy) :=
  if (pySplit keywords).isEmpty then
    { result := .ok [], conn := conn, queries := 0, connects := 0 }
  else
    runRead env conn
      (let r := keywordRows db (pySplit keywords); if r.isEmpty then [] else r) []

/-- Spec-side reading of the claim for `get_vacancies_with_higher_salary`
(for refinement comparison only): the midpoint salary of a vacancy is the
exact average of its lower and upper bounds. -/
def specMidpoint (v : Vacancy) : Option ℚ :=
  match v.salary_from, v.salary_to with
  | some f, some t => some (((f : ℚ) + (t : ℚ)) / 2)
  | _, _ => none

/-- Spec-side reading, continued: the global average midpoint over all
vacancies (those that have a midpoint). -/
def specGlobalAvgMidpoint (db : Database) : Option ℚ :=
  let mids := db.vacancies.filterMap specMidpoint
  if mids.isEmpty then none
  else some (mids.sum / (mids.length : ℚ))

/-- Spec-side reading, continued: exactly the vacancies whose midpoint salary
strictly exceeds the global average midpoint. -/
def specHigherSalaryRows (db : Database) : List Vacancy :=
  match specGlobalAvgMidpoint db with
  | none => []
  | some avg =>
    db.vacancies.filter (fun v =>
      match specMidpoint v with
      | some m => decide (m > avg)
      | none => false)

end DB

namespace HH

/-- C5: for every HTTP response with status 200 whose JSON body decodes to a
mapping, `connect` returns that mapping unchanged. -/
theorem connect_ok_returns_body (r : HTTPResponse) (kvs : List (String × Json))
    (h200 : r.status_code = 200) (hobj : r.body = Json.obj kvs) :
    hhConnect (TransportOutcome.resp r) = ConnectResult.ok kvs := by
  simp [hhConnect, h200, hobj]

theorem connect_ok_returns_body_witness :
    hhConnect (TransportOutcome.resp ⟨200, "ok", Json.obj [("found", Json.num 3)]⟩)
      = ConnectResult.ok [("found", Json.num 3)] :=
  connect_ok_returns_body ⟨200, "ok", Json.obj [("found", Json.num 3)]⟩
    [("found", Json.num 3)] rfl rfl

/-- C6: a non-200 response makes `connect` fail with an `APIError` whose
message contains the status code and the body text; a transport failure makes
it fail with an `APIError` carrying the transport message; and neither error
is caught inside the API layer — the callers `get_vacancies_by_employer_id`
and `get_top_employers` pass the error through unchanged. -/
theorem connect_error_spec (r : HTTPResponse) (m em : String) (N : Int)
    (hst : r.status_code ≠ 200) (hN : 1 ≤ N) :
    (∃ a b, hhConnect (TransportOutcome.resp r)
        = ConnectResult.apiError (a ++ toString r.status_code ++ b ++ r.text))
  ∧ hhConnect (TransportOutcome.exc m)
      = ConnectResult.apiError ("Ошибка при запросе: " ++ m)
  ∧ get_vacancies_by_employer_id (fun _ => ConnectResult.apiError em) N
      = Except.error (ApiExc.apiError em)
  ∧ get_top_employers (fun _ => ConnectResult.apiError em) (PyVal.int 20)
      = Except.error (ApiExc.apiError em) := by
  refine ⟨⟨"Ошибка API: ", " - ", ?_⟩, rfl, ?_, rfl⟩
  · simp [hhConnect, hst]
  · have ht : ∃ t, N.toNat = t + 1 := ⟨N.toNat - 1, by omega⟩
    obtain ⟨t, ht⟩ := ht
    simp [get_vacancies_by_employer_id, ht, fetchPagesTr]

theorem connect_error_spec_witness :
    ((404 : Nat) ≠ 200 ∧ (1 : Int) ≤ 1)
  ∧ ((∃ a b, hhConnect (TransportOutcome.resp ⟨404, "Not Found", Json.null⟩)
        = ConnectResult.apiError (a ++ toString (404 : Nat) ++ b ++ "Not Found"))
  ∧ hhConnect (TransportOutcome.exc "timeout")
      = ConnectResult.apiError ("Ошибка при запросе: " ++ "timeout")
  ∧ get_vacancies_by_employer_id (fun _ => ConnectResult.apiError "E") 1
      = Except.error (ApiExc.apiError "E")
  ∧ get_top_employers (fun _ => ConnectResult.apiError "E") (PyVal.int 20)
      = Except.error (ApiExc.apiError "E")) :=
  ⟨⟨by decide, by decide⟩,
    connect_error_spec ⟨404, "Not Found", Json.null⟩ "timeout" "E" 1 (by decide) (by decide)⟩

/-- C9: for every `max_pages ≤ 0` the loop guard `page < max_pages` fails at
once after the page cursor is reset to 0: no request is issued and the empty
list is returned. -/
theorem vacancies_nonpositive_pages (oracle : Nat → ConnectResult) (m : Int)
    (hm : m ≤ 0) :
    get_vacancies_by_employer_id oracle m = Except.ok []
  ∧ vacanciesConnectCalls oracle m = 0 := by
  have h0 : m.toNat = 0 := by omega
  exact ⟨by simp [get_vacancies_by_employer_id, h0, fetchPagesTr],
    by simp [vacanciesConnectCalls, h0, fetchPagesTr]⟩

theorem vacancies_nonpositive_pages_witness :
    ((-3 : Int) ≤ 0)
  ∧ (get_vacancies_by_employer_id (fun _ => ConnectResult.ok [("items", Json.arr [Json.num 1])]) (-3)
      = Except.ok []
  ∧ vacanciesConnectCalls (fun _ => ConnectResult.ok [("items", Json.arr [Json.num 1])]) (-3) = 0) :=
  ⟨by decide,
    vacancies_nonpositive_pages (fun _ => ConnectResult.ok [("items", Json.arr [Json.num 1])])
      (-3) (by decide)⟩

end HH

namespace HH

/-- C3: against a service that answers requests with a well-formed page
(`items` is a list no longer than the requested `per_page`),
`get_top_employers` raises `TypeError` exactly when `top_n` fails
`isinstance(top_n, int)`, raises `ValueError` exactly when it is an integer
greater than 100 — there is no lower bound check — and otherwise succeeds
with at most `top_n` items. -/
theorem get_top_employers_spec (oracle : EmployersParams → ConnectResult)
    (top_n : PyVal) (d : List (String × Json)) (xs : List Json)
    (hresp : ∀ p, oracle p = ConnectResult.ok d)
    (hitems : dictGet d "items" (Json.arr []) = Json.arr xs) :
    (isTypeErr (get_top_employers oracle top_n) = true
       ↔ isInstanceInt top_n = false)
  ∧ (isValueErr (get_top_employers oracle top_n) = true
       ↔ (isInstanceInt top_n = true ∧ pyIntVal top_n > 100))
  ∧ (isInstanceInt top_n = true → pyIntVal top_n ≤ 100 →
       xs.length ≤ (pyIntVal top_n).toNat →
       get_top_employers oracle top_n = Except.ok xs
         ∧ xs.length ≤ (pyIntVal top_n).toNat) := by
  have hhandle : handleItemsResponse (ConnectResult.ok d) = Except.ok xs := by
    simp [handleItemsResponse, hitems, pyIter]
  cases top_n with
  | int n =>
    by_cases hn : n > 100
    · constructor
      · simp [get_top_employers, isInstanceInt, pyIntVal, hn, isTypeErr]
      · constructor
        · simp [get_top_employers, isInstanceInt, pyIntVal, hn, isValueErr]
        · intro _ hle
          exact absurd hn (by simpa [pyIntVal] using hle.not_lt)
    · constructor
      · simp [get_top_employers, isInstanceInt, pyIntVal, hn, hresp, hhandle, isTypeErr]
      · constructor
        · simp [get_top_employers, isInstanceInt, pyIntVal, hn, hresp, hhandle, isValueErr]
        · intro _ _ hlen
          refine ⟨?_, hlen⟩
          simp [get_top_employers, isInstanceInt, pyIntVal, hn, hresp, hhandle]
  | bool b =>
    cases b <;>
      exact ⟨by simp [get_top_employers, isInstanceInt, pyIntVal, hresp, hhandle, isTypeErr],
        by simp [get_top_employers, isInstanceInt, pyIntVal, hresp, hhandle, isValueErr],
        fun _ _ hlen =>
          ⟨by simp [get_top_employers, isInstanceInt, pyIntVal, hresp, hhandle], hlen⟩⟩
  | str s =>
    refine ⟨by simp [get_top_employers, isInstanceInt, isTypeErr], ?_, ?_⟩
    · simp [get_top_employers, isInstanceInt, isValueErr]
    · intro h
      simp [isInstanceInt] at h
  | none =>
    refine ⟨by simp [get_top_employers, isInstanceInt, isTypeErr], ?_, ?_⟩
    · simp [get_top_employers, isInstanceInt, isValueErr]
    · intro h
      simp [isInstanceInt] at h

theorem get_top_employers_spec_witness :
    ((isTypeErr (get_top_employers
          (fun _ => ConnectResult.ok [("items", Json.arr [Json.num 1])]) (PyVal.str "x")) = true
        ↔ isInstanceInt (PyVal.str "x") = false)
  ∧ (isValueErr (get_top_employers
          (fun _ => ConnectResult.ok [("items", Json.arr [Json.num 1])]) (PyVal.str "x")) = true
        ↔ (isInstanceInt (PyVal.str "x") = true ∧ pyIntVal (PyVal.str "x") > 100))
  ∧ (isInstanceInt (PyVal.str "x") = true → pyIntVal (PyVal.str "x") ≤ 100 →
       [Json.num 1].length ≤ (pyIntVal (PyVal.str "x")).toNat →
       get_top_employers
           (fun _ => ConnectResult.ok [("items", Json.arr [Json.num 1])]) (PyVal.str "x")
         = Except.ok [Json.num 1]
         ∧ [Json.num 1].length ≤ (pyIntVal (PyVal.str "x")).toNat))
  ∧ ((isTypeErr (get_top_employers
          (fun _ => ConnectResult.ok [("items", Json.arr [Json.num 1])]) (PyVal.int 20)) = true
        ↔ isInstanceInt (PyVal.int 20) = false)
  ∧ (isValueErr (get_top_employers
          (fun _ => ConnectResult.ok [("items", Json.arr [Json.num 1])]) (PyVal.int 20)) = true
        ↔ (isInstanceInt (PyVal.int 20) = true ∧ pyIntVal (PyVal.int 20) > 100))
  ∧ (isInstanceInt (PyVal.int 20) = true → pyIntVal (PyVal.int 20) ≤ 100 →
       [Json.num 1].length ≤ (pyIntVal (PyVal.int 20)).toNat →
       get_top_employers
           (fun _ => ConnectResult.ok [("items", Json.arr [Json.num 1])]) (PyVal.int 20)
         = Except.ok [Json.num 1]
         ∧ [Json.num 1].length ≤ (pyIntVal (PyVal.int 20)).toNat)) :=
  ⟨get_top_employers_spec (fun _ => ConnectResult.ok [("items", Json.arr [Json.num 1])])
      (PyVal.str "x") [("items", Json.arr [Json.num 1])] [Json.num 1] (fun _ => rfl) rfl,
    get_top_employers_spec (fun _ => ConnectResult.ok [("items", Json.arr [Json.num 1])])
      (PyVal.int 20) [("items", Json.arr [Json.num 1])] [Json.num 1] (fun _ => rfl) rfl⟩

/-- C10: for boolean `top_n` the `isinstance(top_n, int)` guard passes
(`bool` is a subclass of `int`), so no `TypeError` is raised: the method
proceeds to issue the request with `per_page` set to the boolean value, and
on a well-formed response it returns the items. -/
theorem get_top_employers_accepts_bool (oracle : EmployersParams → ConnectResult)
    (b : Bool) :
    get_top_employers oracle (PyVal.bool b)
      = handleItemsResponse
          (oracle { per_page := PyVal.bool b, sort_by := "by_vacancies_open", area := "113" })
  ∧ (∀ d xs,
      oracle { per_page := PyVal.bool b, sort_by := "by_vacancies_open", area := "113" }
          = ConnectResult.ok d →
      dictGet d "items" (Json.arr []) = Json.arr xs →
      get_top_employers oracle (PyVal.bool b) = Except.ok xs) := by
  cases b <;>
    exact ⟨by simp [get_top_employers, isInstanceInt, pyIntVal],
      fun d xs hd hx => by
        simp [get_top_employers, isInstanceInt, pyIntVal, hd, handleItemsResponse, hx, pyIter]⟩

theorem get_top_employers_accepts_bool_witness :
    get_top_employers (fun _ => ConnectResult.ok [("items", Json.arr [Json.num 5])])
        (PyVal.bool true)
      = handleItemsResponse
          ((fun _ => ConnectResult.ok [("items", Json.arr [Json.num 5])])
            ({ per_page := PyVal.bool true, sort_by := "by_vacancies_open", area := "113" }
              : EmployersParams))
  ∧ get_top_employers (fun _ => ConnectResult.ok [("items", Json.arr [Json.num 5])])
        (PyVal.bool true)
      = Except.ok [Json.num 5] := by
  have h := get_top_employers_accepts_bool
    (fun _ => ConnectResult.ok [("items", Json.arr [Json.num 5])]) true
  exact ⟨h.1, h.2 [("items", Json.arr [Json.num 5])] [Json.num 5] rfl rfl⟩

end HH

namespace HH

/-- Helper for the pagination claims: one run of the fetch loop against a
service whose page `i` decodes to the dict `d i` holding the items list
`items i`.  If the `k` pages starting at `page` are non-empty and the next
page is empty whenever the guard still allows reading it, the loop
accumulates exactly those `k` pages and calls `connect` `k + 1` times
(`k` when the `max_pages` guard stops it first). -/
lemma fetchPagesTr_run (oracle : Nat → ConnectResult)
    (d : Nat → List (String × Json)) (items : Nat → List Json)
    (hor : ∀ i, oracle i = ConnectResult.ok (d i))
    (hit : ∀ i, dictGet (d i) "items" (Json.arr []) = Json.arr (items i)) :
    ∀ (k page remaining : Nat) (acc : List Json), k ≤ remaining →
      (∀ i, i < k → items (page + i) ≠ []) →
      (k < remaining → items (page + k) = []) →
      fetchPagesTr oracle page remaining acc
        = (Except.ok (acc ++ ((List.range k).map (fun i => items (page + i))).flatten),
           if k < remaining then k + 1 else k) := by
  intro k
  induction k with
  | zero =>
    intro page remaining acc _ _ hemp
    cases remaining with
    | zero => simp [fetchPagesTr]
    | succ r =>
      have h0 : items page = [] := by simpa using hemp (Nat.succ_pos r)
      simp [fetchPagesTr, hor page, hit page, falsy, h0]
  | succ k ih =>
    intro page remaining acc hk hne hemp
    cases remaining with
    | zero => omega
    | succ r =>
      have hp : items page ≠ [] := by simpa using hne 0 (Nat.succ_pos k)
      have hpe : (items page).isEmpty = false := by
        cases h : items page with
        | nil => exact absurd h hp
        | cons a l => simp
      have step : fetchPagesTr oracle page (r + 1) acc
          = ((fetchPagesTr oracle (page + 1) r (acc ++ items page)).1,
             (fetchPagesTr oracle (page + 1) r (acc ++ items page)).2 + 1) := by
        simp [fetchPagesTr, hor page, hit page, falsy, hpe, pyIter]
      have hne' : ∀ i, i < k → items (page + 1 + i) ≠ [] := by
        intro i hi
        have h := hne (i + 1) (by omega)
        have e : page + (i + 1) = page + 1 + i := by omega
        rwa [e] at h
      have hemp' : k < r → items (page + 1 + k) = [] := by
        intro h
        have h2 := hemp (by omega)
        have e : page + (k + 1) = page + 1 + k := by omega
        rwa [e] at h2
      rw [step, ih (page + 1) r (acc ++ items page) (by omega) hne' hemp']
      have hfe : ((fun i => items (page + i)) ∘ Nat.succ) = fun i => items (page + 1 + i) :=
        funext fun i => congrArg items (by omega)
      have hlist : acc ++ (((List.range (k + 1)).map (fun i => items (page + i))).flatten)
          = (acc ++ items page)
              ++ (((List.range k).map (fun i => items (page + 1 + i))).flatten) := by
        rw [List.range_succ_eq_map, List.map_cons, List.map_map, hfe]
        simp [List.append_assoc]
      rw [hlist]
      simp only [Prod.mk.injEq]
      refine ⟨by trivial, ?_⟩
      by_cases h : k < r
      · have h2 : k + 1 < r + 1 := by omega
        simp [h, h2]
      · have h2 : ¬ k + 1 < r + 1 := by omega
        simp [h, h2]

end HH

namespace HH

/-- C1: against a service whose page `i` is a well-formed mapping with items
list `items i`, and for every non-negative `max_pages = N`,
`get_vacancies_by_employer_id` starts at page 0, issues at most `N` requests
with the page parameter incremented by one each iteration, stops the first
time a page's items list is empty (before accumulating it), and returns the
concatenation of the first `k` non-empty pages in page order then in-page
order, with no deduplication.  `k` counts the consecutive non-empty pages the
guard lets the loop read. -/
theorem get_vacancies_by_employer_id_spec (oracle : Nat → ConnectResult)
    (d : Nat → List (String × Json)) (items : Nat → List Json) (N k : Nat)
    (hor : ∀ i, oracle i = ConnectResult.ok (d i))
    (hit : ∀ i, dictGet (d i) "items" (Json.arr []) = Json.arr (items i))
    (hkN : k ≤ N)
    (hne : ∀ i, i < k → items i ≠ [])
    (hemp : k < N → items k = []) :
    get_vacancies_by_employer_id oracle (N : Int)
        = Except.ok (((List.range k).map items).flatten)
  ∧ vacanciesConnectCalls oracle (N : Int) = (if k < N then k + 1 else k)
  ∧ vacanciesConnectCalls oracle (N : Int) ≤ N := by
  have htoNat : ((N : Int)).toNat = N := by omega
  have hrun := fetchPagesTr_run oracle d items hor hit k 0 N []
    hkN (fun i hi => by simpa using hne i hi) (fun h => by simpa using hemp h)
  have hfe : (fun i => items (0 + i)) = items :=
    funext fun i => congrArg items (Nat.zero_add i)
  refine ⟨?_, ?_, ?_⟩
  · unfold get_vacancies_by_employer_id
    rw [htoNat, hrun]
    simp [hfe]
  · unfold vacanciesConnectCalls
    rw [htoNat, hrun]
  · unfold vacanciesConnectCalls
    rw [htoNat, hrun]
    by_cases h : k < N
    · simp only [h, if_true]
      omega
    · simp only [h, if_false]
      omega

theorem get_vacancies_by_employer_id_spec_witness :
    get_vacancies_by_employer_id
        (fun i => ConnectResult.ok
          [("items", Json.arr (if i = 0 then [Json.num 1] else []))]) (5 : Int)
      = Except.ok [Json.num 1]
  ∧ vacanciesConnectCalls
        (fun i => ConnectResult.ok
          [("items", Json.arr (if i = 0 then [Json.num 1] else []))]) (5 : Int)
      = 2 := by
  have h := get_vacancies_by_employer_id_spec
    (fun i => ConnectResult.ok
      [("items", Json.arr (if i = 0 then [Json.num 1] else []))])
    (fun i => [("items", Json.arr (if i = 0 then [Json.num 1] else []))])
    (fun i => if i = 0 then [Json.num 1] else [])
    5 1 (fun _ => rfl) (fun _ => rfl) (by omega)
    (by
      intro i hi
      have h0 : i = 0 := by omega
      subst h0
      simp)
    (by intro _; simp)
  refine ⟨?_, ?_⟩
  · have h1 := h.1
    simpa using h1
  · have h2 := h.2.1
    simpa using h2

end HH

namespace DB

/-- Helper: the splitting pass over characters that are all whitespace yields
no token. -/
lemma pySplitAux_all_space (l : List Char) (hl : ∀ c ∈ l, isSpace c = true) :
    pySplitAux l [] = [] := by
  induction l with
  | nil => simp [pySplitAux]
  | cons c rest ih =>
    have hc : isSpace c = true := hl c (List.mem_cons_self c rest)
    have hrest : ∀ x ∈ rest, isSpace x = true :=
      fun x hx => hl x (List.mem_cons_of_mem c hx)
    simp [pySplitAux, hc, ih hrest]

/-- Helper: `str.split()` of a string whose characters are all whitespace is
the empty token list. -/
lemma pySplit_all_space (s : String) (hs : ∀ c ∈ s.data, isSpace c = true) :
    pySplit s = [] :=
  pySplitAux_all_space s.data hs

/-- C7: a keywords string that is empty or consists only of whitespace makes
`get_vacancies_with_keyword` return the empty list before `self.connect()` is
reached: no connect attempt, no query, and the connection handle is exactly
what it was before the call. -/
theorem get_vacancies_with_keyword_whitespace (db : Database) (env : DBEnv)
    (conn : Option Unit) (s : String)
    (hs : ∀ c ∈ s.data, isSpace c = true) :
    (get_vacancies_with_keyword db env conn s).result = Except.ok []
  ∧ (get_vacancies_with_keyword db env conn s).conn = conn
  ∧ (get_vacancies_with_keyword db env conn s).queries = 0
  ∧ (get_vacancies_with_keyword db env conn s).connects = 0 := by
  have h := pySplit_all_space s hs
  refine ⟨?_, ?_, ?_, ?_⟩ <;> simp [get_vacancies_with_keyword, h]

theorem get_vacancies_with_keyword_whitespace_witness :
    ((get_vacancies_with_keyword ⟨[], []⟩ ⟨true, true⟩ Option.none " \t ").result
        = Except.ok []
  ∧ (get_vacancies_with_keyword ⟨[], []⟩ ⟨true, true⟩ Option.none " \t ").conn
        = Option.none
  ∧ (get_vacancies_with_keyword ⟨[], []⟩ ⟨true, true⟩ Option.none " \t ").queries = 0
  ∧ (get_vacancies_with_keyword ⟨[], []⟩ ⟨true, true⟩ Option.none " \t ").connects = 0) :=
  get_vacancies_with_keyword_whitespace ⟨[], []⟩ ⟨true, true⟩ Option.none " \t "
    (by decide)

/-- C8: every read operation of the data-access layer that starts with an
unset connection handle finishes with it unset again, whether it returns a
value or raises: the `finally: self.close()` step runs on success, on a
caught `DatabaseError`, and on the escaping `AttributeError`, and the
whitespace short-circuit of `get_vacancies_with_keyword` never touches the
handle. -/
theorem db_reads_reset_connection (db : Database) (env : DBEnv) (kw : String) :
    (get_companies_and_vacancies_count db env Option.none).conn = Option.none
  ∧ (get_all_vacancies db env Option.none).conn = Option.none
  ∧ (get_avg_salary db env Option.none).conn = Option.none
  ∧ (get_vacancies_with_higher_salary db env Option.none).conn = Option.none
  ∧ (get_vacancies_with_keyword db env Option.none kw).conn = Option.none := by
  rcases env with ⟨co, qo⟩
  refine ⟨?_, ?_, ?_, ?_, ?_⟩
  · cases co <;> cases qo <;>
      simp [get_companies_and_vacancies_count, runRead, dbConnect]
  · cases co <;> cases qo <;> simp [get_all_vacancies, runRead, dbConnect]
  · cases co <;> cases qo <;> simp [get_avg_salary, runRead, dbConnect]
  · cases co <;> cases qo <;>
      simp [get_vacancies_with_higher_salary, runRead, dbConnect]
  · unfold get_vacancies_with_keyword
    split
    · rfl
    · cases co <;> cases qo <;> simp [runRead, dbConnect]

end DB

namespace DB

/-- C2 counterexample: when `psycopg2.connect` fails, `DBManager.connect`
leaves the handle `None` and `get_companies_and_vacancies_count` raises
`AttributeError` at `self.__conn.cursor()` — the exception reaches the
caller instead of being converted to an empty sequence. -/
theorem dal_connect_failure_counterexample :
    (get_companies_and_vacancies_count ⟨[], []⟩ ⟨false, true⟩ Option.none).result
      = Except.error (PyErr.attributeError "NoneType object has no attribute cursor") :=
  rfl

/-- C2 amended: a `psycopg2.DatabaseError` raised during query execution is
caught at the method boundary and converted to an empty sequence (0.0 for
`get_avg_salary`); but when the connection itself cannot be established and
no handle was open, every read method raises `AttributeError`
(`self.__conn` is `None`), which propagates to the caller. -/
theorem dal_error_handling_amended (db : Database) (conn : Option Unit)
    (kw : String) (hkw : (pySplit kw).isEmpty = false) :
    ((get_companies_and_vacancies_count db ⟨true, false⟩ conn).result = Except.ok []
  ∧ (get_all_vacancies db ⟨true, false⟩ conn).result = Except.ok []
  ∧ (get_avg_salary db ⟨true, false⟩ conn).result = Except.ok 0
  ∧ (get_vacancies_with_higher_salary db ⟨true, false⟩ conn).result = Except.ok []
  ∧ (get_vacancies_with_keyword db ⟨true, false⟩ conn kw).result = Except.ok [])
  ∧ ((get_companies_and_vacancies_count db ⟨false, true⟩ Option.none).result
       = Except.error (PyErr.attributeError "NoneType object has no attribute cursor")
  ∧ (get_all_vacancies db ⟨false, true⟩ Option.none).result
       = Except.error (PyErr.attributeError "NoneType object has no attribute cursor")
  ∧ (get_avg_salary db ⟨false, true⟩ Option.none).result
       = Except.error (PyErr.attributeError "NoneType object has no attribute cursor")
  ∧ (get_vacancies_with_higher_salary db ⟨false, true⟩ Option.none).result
       = Except.error (PyErr.attributeError "NoneType object has no attribute cursor")
  ∧ (get_vacancies_with_keyword db ⟨false, true⟩ Option.none kw).result
       = Except.error (PyErr.attributeError "NoneType object has no attribute cursor")) := by
  constructor
  · refine ⟨?_, ?_, ?_, ?_, ?_⟩
    · cases conn <;>
        simp [get_companies_and_vacancies_count, runRead, dbConnect]
    · cases conn <;> simp [get_all_vacancies, runRead, dbConnect]
    · cases conn <;> simp [get_avg_salary, runRead, dbConnect]
    · cases conn <;>
        simp [get_vacancies_with_higher_salary, runRead, dbConnect]
    · cases conn <;>
        simp [get_vacancies_with_keyword, hkw, runRead, dbConnect]
  · exact ⟨rfl, rfl, rfl, rfl,
      by simp [get_vacancies_with_keyword, hkw, runRead, dbConnect]⟩

theorem dal_error_handling_amended_witness :
    ((pySplit "python").isEmpty = false)
  ∧ (((get_companies_and_vacancies_count ⟨[], []⟩ ⟨true, false⟩ Option.none).result
        = Except.ok []
  ∧ (get_all_vacancies ⟨[], []⟩ ⟨true, false⟩ Option.none).result = Except.ok []
  ∧ (get_avg_salary ⟨[], []⟩ ⟨true, false⟩ Option.none).result = Except.ok 0
  ∧ (get_vacancies_with_higher_salary ⟨[], []⟩ ⟨true, false⟩ Option.none).result
        = Except.ok []
  ∧ (get_vacancies_with_keyword ⟨[], []⟩ ⟨true, false⟩ Option.none "python").result
        = Except.ok [])
  ∧ ((get_companies_and_vacancies_count ⟨[], []⟩ ⟨false, true⟩ Option.none).result
       = Except.error (PyErr.attributeError "NoneType object has no attribute cursor")
  ∧ (get_all_vacancies ⟨[], []⟩ ⟨false, true⟩ Option.none).result
       = Except.error (PyErr.attributeError "NoneType object has no attribute cursor")
  ∧ (get_avg_salary ⟨[], []⟩ ⟨false, true⟩ Option.none).result
       = Except.error (PyErr.attributeError "NoneType object has no attribute cursor")
  ∧ (get_vacancies_with_higher_salary ⟨[], []⟩ ⟨false, true⟩ Option.none).result
       = Except.error (PyErr.attributeError "NoneType object has no attribute cursor")
  ∧ (get_vacancies_with_keyword ⟨[], []⟩ ⟨false, true⟩ Option.none "python").result
       = Except.error (PyErr.attributeError "NoneType object has no attribute cursor"))) :=
  ⟨rfl, dal_error_handling_amended ⟨[], []⟩ Option.none "python" rfl⟩

end DB

namespace DB

/-- Helper: the source's `return result if result else []` is the identity on
lists. -/
lemma ifEmpty_eq {α : Type} (l : List α) :
    (if l.isEmpty then ([] : List α) else l) = l := by
  cases l <;> simp

/-- Stored vacancy with salary bounds (0, 1): exact midpoint 1/2, SQL integer
midpoint 0. -/
def exVacancyA : Vacancy := ⟨1, some 1, "a", "c", "u", some 0, some 1⟩

/-- Stored vacancy with salary bounds (0, 3): exact midpoint 3/2, SQL integer
midpoint 1. -/
def exVacancyB : Vacancy := ⟨2, some 1, "b", "c", "u", some 0, some 3⟩

/-- Store holding the two example vacancies. -/
def exDatabase : Database := ⟨[⟨1, "Acme", "acme.url"⟩], [exVacancyA, exVacancyB]⟩

/-- C4 counterexample: on the example store the exact average midpoint is 1
and vacancy B's exact midpoint is 3/2 > 1, so the claim requires B to be
returned; but the query compares the integer-division midpoint
`(0+3)/2 = 1` against the exact threshold `((1+3)/2)/2 = 1` and `1 > 1`
fails, so the code returns the empty list. -/
theorem higher_salary_counterexample :
    (get_vacancies_with_higher_salary exDatabase ⟨true, true⟩ Option.none).result
        = Except.ok []
  ∧ specGlobalAvgMidpoint exDatabase = some 1
  ∧ specMidpoint exVacancyB = some (3 / 2)
  ∧ specHigherSalaryRows exDatabase = [exVacancyB]
  ∧ specHigherSalaryRows exDatabase ≠ [] := by
  have h1 : Int.tdiv 1 2 = 0 := by decide
  have h3 : Int.tdiv 3 2 = 1 := by decide
  refine ⟨?_, ?_, ?_, ?_, ?_⟩
  · simp [get_vacancies_with_higher_salary, runRead, dbConnect,
      higherSalaryRows, higherSalaryThreshold, salarySums, exDatabase,
      exVacancyA, exVacancyB, List.filter, intMidpoint, h1, h3,
      decide_eq_true_eq] <;> norm_num
  · simp [specGlobalAvgMidpoint, specMidpoint, exDatabase, exVacancyA,
      exVacancyB, List.filterMap] <;> norm_num
  · simp [specMidpoint, exVacancyB] <;> norm_num
  · simp [specHigherSalaryRows, specGlobalAvgMidpoint, specMidpoint,
      exDatabase, exVacancyA, exVacancyB, List.filter, List.filterMap,
      decide_eq_true_eq] <;> norm_num
  · have h4 : specHigherSalaryRows exDatabase = [exVacancyB] := by
      simp [specHigherSalaryRows, specGlobalAvgMidpoint, specMidpoint,
        exDatabase, exVacancyA, exVacancyB, List.filter, List.filterMap,
        decide_eq_true_eq] <;> norm_num
    rw [h4]
    simp

/-- C4 amended: with a working connection and query,
`get_vacancies_with_higher_salary` returns exactly the vacancies that have
both salary bounds and whose SQL integer midpoint `(salary_from+salary_to)/2`
(truncating division) strictly exceeds the exact numeric threshold
`AVG(salary_from+salary_to)/2` computed over the vacancies that have both
bounds; vacancies with a NULL bound are excluded from both sides, and the
result is recomputed on each call from the store. -/
theorem get_vacancies_with_higher_salary_amended (db : Database) (env : DBEnv)
    (conn : Option Unit) (hc : env.connectOk = true) (hq : env.queryOk = true) :
    (get_vacancies_with_higher_salary db env conn).result
        = Except.ok (higherSalaryRows db)
  ∧ (∀ v, v ∈ higherSalaryRows db
      ↔ (v ∈ db.vacancies ∧ ∃ f t, v.salary_from = some f ∧ v.salary_to = some t ∧
          ((intMidpoint f t : ℚ)
            > (((salarySums db).sum : ℚ) / ((salarySums db).length : ℚ)) / 2))) := by
  constructor
  · rcases env with ⟨co, qo⟩
    cases hc
    cases hq
    cases conn <;>
      simp [get_vacancies_with_higher_salary, runRead, dbConnect, ifEmpty_eq]
  · intro v
    unfold higherSalaryRows higherSalaryThreshold
    by_cases hs : (salarySums db).isEmpty
    · have hnil : salarySums db = [] := by
        cases h : salarySums db with
        | nil => rfl
        | cons a l => rw [h] at hs; simp at hs
      simp only [hs, if_true, List.not_mem_nil, false_iff]
      rintro ⟨hv, f, t, hf, ht, _⟩
      have hmem : (f + t) ∈ salarySums db :=
        List.mem_filterMap.mpr ⟨v, hv, by rw [hf, ht]⟩
      rw [hnil] at hmem
      exact absurd hmem (List.not_mem_nil (f + t))
    · rw [if_neg hs]
      rw [List.mem_filter]
      constructor
      · rintro ⟨hv, hpred⟩
        refine ⟨hv, ?_⟩
        cases hf : v.salary_from with
        | none => rw [hf] at hpred; exact absurd hpred (by simp)
        | some f =>
          cases ht : v.salary_to with
          | none => rw [hf, ht] at hpred; exact absurd hpred (by simp)
          | some t =>
            rw [hf, ht] at hpred
            simp only [decide_eq_true_eq] at hpred
            exact ⟨f, t, rfl, rfl, hpred⟩
      · rintro ⟨hv, f, t, hf, ht, hgt⟩
        refine ⟨hv, ?_⟩
        rw [hf, ht]
        simpa using hgt

theorem get_vacancies_with_higher_salary_amended_witness :
    (get_vacancies_with_higher_salary exDatabase ⟨true, true⟩ Option.none).result
      = Except.ok (higherSalaryRows exDatabase) :=
  (get_vacancies_with_higher_salary_amended exDatabase ⟨true, true⟩ Option.none
    rfl rfl).1

end DB
